import Mathlib

/-!
Verification of the FaceSwapPro image pipeline against its design notes.

The Python sources are embedded shallowly:

* `Image` models a `numpy` BGR array (3 channels, entries are the channel
  values); `Mat` models a single-channel array.
* Calls into external libraries (insightface, OpenCV colour-space
  conversions, PIL enhancers, the Haar cascade, the network and the file
  system) are oracle fields of `Oracles` / `Env` / `VerifyEnv` records:
  the embedded code is parametric in their behaviour, exactly as the
  Python code makes no assumption about them.  Calls whose semantics is
  exact and documented (BGR/RGB channel permutation, `cv2.add`
  saturation, `np.clip`, array slicing) are embedded concretely.
* A Python call that can raise is modelled with `Except PyErr`; a
  `try/except` block is a `match` on that result.
-/

/-- Python exception value (the code only distinguishes "some exception"). -/
inductive PyErr where
  | exc : PyErr
deriving DecidableEq, Repr

/-- One pixel: the three 8-bit channel values in array order
(BGR for OpenCV images, RGB for PIL images). -/
abbrev Pix := Nat × Nat × Nat

/-- A three-channel image: height, width and the pixel grid
(`numpy.ndarray` of shape `(h, w, 3)`). -/
@[ext]
structure Image where
  h : Nat
  w : Nat
  px : Nat → Nat → Pix

instance : Inhabited Image := ⟨⟨0, 0, fun _ _ => (0, 0, 0)⟩⟩

/-- A single-channel array (one plane of an HSV / LAB split). -/
@[ext]
structure Mat where
  h : Nat
  w : Nat
  val : Nat → Nat → Nat

/-- Apply a function to every pixel (shape-preserving). -/
def mapPix (f : Pix → Pix) (img : Image) : Image :=
  ⟨img.h, img.w, fun i j => f (img.px i j)⟩

/-- The exact semantics of `cv2.cvtColor` with `COLOR_BGR2RGB` or
`COLOR_RGB2BGR`: both swap channels 0 and 2. -/
def swapCh02 (p : Pix) : Pix := (p.2.2, p.2.1, p.1)

/-- The axis-aligned face rectangle `(x, y, w, h)` returned by
`cv2.CascadeClassifier.detectMultiScale` (non-negative integers). -/
structure Box where
  x : Nat
  y : Nat
  w : Nat
  h : Nat
deriving DecidableEq, Repr

/-- Bounding box of an InsightFace detection, `face.bbox = [x1, y1, x2, y2]`
(floating-point coordinates, modelled as rationals). -/
structure BBox where
  x1 : Rat
  y1 : Rat
  x2 : Rat
  y2 : Rat
deriving DecidableEq, Repr

/-- An InsightFace detection record; the code only reads its `bbox`. -/
structure Face where
  bbox : BBox
deriving DecidableEq, Repr

/-- The sort key used at `face_detector.py:67`, `lambda x: x.bbox[0]`. -/
def faceLe (a b : Face) : Prop := a.bbox.x1 ≤ b.bbox.x1

instance : DecidableRel faceLe :=
  fun a b => inferInstanceAs (Decidable (a.bbox.x1 ≤ b.bbox.x1))

instance : IsTotal Face faceLe := ⟨fun a b => le_total a.bbox.x1 b.bbox.x1⟩

instance : IsTrans Face faceLe := ⟨fun _ _ _ hab hbc => le_trans hab hbc⟩

/-- `FaceDetector.detect_faces` (face_detector.py lines 47-74).
`appGet` is the external `self.app.get` call of InsightFace, which may
raise; Python's stable `sorted` with a `≤`-key is embedded as insertion
sort on the same key.  A `None` image returns `[]` (line 58-60); a
raising detector call is caught and returns `[]` (lines 72-74). -/
def detect_faces (appGet : Image → Except PyErr (List Face))
    (image : Option Image) : List Face :=
  match image with
  | none => []
  | some img =>
    match appGet img with
    | Except.error _ => []
    | Except.ok faces => List.insertionSort faceLe faces

/-- `FaceSwapper.swap_face` (face_swapper.py lines 47-71).  `swapperGet`
is the external `self.swapper.get(result, target_face, source_face,
paste_back=True)` call, receiving a copy of the target image; on any
exception the except-branch returns `target_img.copy()` (line 71),
which is pixel-identical to `target_img`. -/
def swap_face (swapperGet : Image → Face → Face → Except PyErr Image)
    (target_img : Image) (target_face : Face)
    (source_img : Image) (source_face : Face) : Image :=
  match swapperGet target_img target_face source_face with
  | Except.ok result => result
  | Except.error _ => target_img

/-- View of rows `[b.y, b.y+b.h)` and columns `[b.x, b.x+b.w)` of an image:
`result[y:y+h, x:x+w]` (for boxes inside the array, where numpy slicing
does not clip). -/
def cropBox (img : Image) (b : Box) : Image :=
  ⟨b.h, b.w, fun i j => img.px (b.y + i) (b.x + j)⟩

/-- Slice assignment `result[y:y+h, x:x+w] = roi` for an in-bounds box. -/
def pasteBox (img : Image) (b : Box) (roi : Image) : Image :=
  ⟨img.h, img.w, fun i j =>
    if b.y ≤ i ∧ i < b.y + b.h ∧ b.x ≤ j ∧ j < b.x + b.w then
      roi.px (i - b.y) (j - b.x)
    else img.px i j⟩

/-- The region update of image_enhancer.py lines 161-163 / 167-169:
`region = s[r0:r0+rh, c0:c0+cw]; region = np.clip(region.astype(np.int16)
+ d, 0, 255).astype(np.uint8); s[r0:r0+rh, c0:c0+cw] = region`.
For 8-bit values `v`, `np.clip(v + d, 0, 255)` with `d ≥ 0` is
`min 255 (v + d)`. -/
def clipAddRegion (s : Mat) (r0 rh c0 cw d : Nat) : Mat :=
  ⟨s.h, s.w, fun i j =>
    if r0 ≤ i ∧ i < r0 + rh ∧ c0 ≤ j ∧ j < c0 + cw then
      min 255 (s.val i j + d)
    else s.val i j⟩

/-- The exact semantics of `cv2.add(s, 10)` on an 8-bit array:
saturating addition. -/
def cvAddSat (s : Mat) (d : Nat) : Mat :=
  ⟨s.h, s.w, fun i j => min 255 (s.val i j + d)⟩

/-!
Concrete model of the three PIL `ImageEnhance` steps of `enhance_basic`
(Pillow ImageEnhance.py, convert.c, Blend.c, Filter.c), used to
instantiate the PIL oracles on concrete runs.  They operate on
PIL-domain images, so channel order is RGB (`p.1 = R`).
-/

/-- Luminance of an RGB pixel as PIL mode "L" computes it: the
ITU-R 601-2 fixed-point formula of Pillow's convert.c,
`(R*19595 + G*38470 + B*7471 + 0x8000) >> 16`.  The weights sum to
65536, so on a gray pixel `(v,v,v)` the value is exactly `v` whether
or not the `0x8000` rounding term is present (it varies across PIL
versions). -/
def pilGrayVal (p : Pix) : Nat :=
  (p.1 * 19595 + p.2.1 * 38470 + p.2.2 * 7471 + 32768) / 65536

/-- Sum of a function over a pixel grid. -/
def gridSum (h w : Nat) (f : Nat → Nat → Nat) : Nat :=
  (List.range h).foldl (fun acc i =>
    (List.range w).foldl (fun acc2 j => acc2 + f i j) acc) 0

/-- The constant gray level of `ImageEnhance.Contrast`'s degenerate
image: `int(ImageStat.Stat(image.convert("L")).mean[0] + 0.5)`, i.e.
`⌊sum/count + 1/2⌋` written over the integers as
`(2*sum + count) / (2*count)`.  The Python mean is a double; the exact
arithmetic here agrees with it whenever the double mean is exact,
which holds at every input traced in this file (an empty image, where
Python would divide by zero, is never traced). -/
def pilMeanGray (img : Image) : Nat :=
  (2 * gridSum img.h img.w (fun i j => pilGrayVal (img.px i j)) +
    img.h * img.w) / (2 * (img.h * img.w))

/-- One channel value of `Image.blend(degenerate, image, k/10)` for a
factor above 1 (Pillow Blend.c extrapolation branch): the value
`d + (k/10)*(v - d)` is clipped to `[0, 255]` and cast to uint8 by
truncation.  Computed exactly as `t10 = 10*d + k*(v - d)` over the
integers; Blend.c computes in single precision with the float32 of the
factor, which yields the same byte whenever the exact value is not
within the float error (≈2e-6 relative) of a truncation or clip
boundary — at every input traced in this file the exact value is an
integer reached without rounding, so model and library agree. -/
def pilBlendVal (d v k : Nat) : Nat :=
  let t10 : Int := 10 * (d : Int) + (k : Int) * ((v : Int) - (d : Int))
  if t10 ≤ 0 then 0 else if 2550 ≤ t10 then 255 else (t10 / 10).toNat

/-- One channel of the `ImageFilter.SMOOTH` 3×3 kernel
`(1,1,1,1,5,1,1,1,1)/13` at an interior pixel. -/
def smooth3x3 (img : Image) (ch : Pix → Nat) (i j : Nat) : Nat :=
  (ch (img.px (i-1) (j-1)) + ch (img.px (i-1) j) + ch (img.px (i-1) (j+1)) +
   ch (img.px i (j-1)) + 5 * ch (img.px i j) + ch (img.px i (j+1)) +
   ch (img.px (i+1) (j-1)) + ch (img.px (i+1) j) + ch (img.px (i+1) (j+1)))
    / 13

/-- Pillow's SMOOTH pre-filter used by `ImageEnhance.Sharpness`: the
3×3 kernel on interior pixels, while Filter.c copies border rows and
columns from the input unchanged — on an image with height or width
below 3 every pixel is border and the filter is the identity.
Interior values are modelled as the truncated exact quotient; Filter.c
computes them in single precision, which can differ by one where the
exact quotient is within float error of an integer, but no statement
in this file traces an interior pixel. -/
def pilSmoothFilter (img : Image) : Image :=
  ⟨img.h, img.w, fun i j =>
    if 1 ≤ i ∧ i + 1 < img.h ∧ 1 ≤ j ∧ j + 1 < img.w then
      (smooth3x3 img (fun p => p.1) i j, smooth3x3 img (fun p => p.2.1) i j,
        smooth3x3 img (fun p => p.2.2) i j)
    else img.px i j⟩

/-- `ImageEnhance.Sharpness(pil).enhance(1.3)` (image_enhancer.py
lines 59-60): blend of the SMOOTH-filtered degenerate with the image
at factor 13/10. -/
def pilSharpness13 (img : Image) : Image :=
  let degenerate := pilSmoothFilter img
  ⟨img.h, img.w, fun i j =>
    (pilBlendVal (degenerate.px i j).1 (img.px i j).1 13,
     pilBlendVal (degenerate.px i j).2.1 (img.px i j).2.1 13,
     pilBlendVal (degenerate.px i j).2.2 (img.px i j).2.2 13)⟩

/-- `ImageEnhance.Contrast(pil).enhance(1.1)` (image_enhancer.py
lines 63-64): blend of the constant mean-gray degenerate with the
image at factor 11/10. -/
def pilContrast11 (img : Image) : Image :=
  let mean := pilMeanGray img
  ⟨img.h, img.w, fun i j =>
    (pilBlendVal mean (img.px i j).1 11,
     pilBlendVal mean (img.px i j).2.1 11,
     pilBlendVal mean (img.px i j).2.2 11)⟩

/-- `ImageEnhance.Color(pil).enhance(1.1)` (image_enhancer.py lines
67-68): blend of the per-pixel grayscale degenerate with the image at
factor 11/10; the identity on gray pixels. -/
def pilColor11 (img : Image) : Image :=
  ⟨img.h, img.w, fun i j =>
    let d := pilGrayVal (img.px i j)
    (pilBlendVal d (img.px i j).1 11,
     pilBlendVal d (img.px i j).2.1 11,
     pilBlendVal d (img.px i j).2.2 11)⟩

/-- External library calls used by `ImageEnhancer` (image_enhancer.py).
Each field is one opaque call with its fixed arguments from the source:
the PIL enhancers of `enhance_basic` (factors 1.3 / 1.1 / 1.1), the
grayscale conversion and Haar cascade `detectMultiScale(gray, 1.3, 5)`,
the OpenCV filters of `enhance_skin`, the colour-space conversions
composed with `cv2.split` / `cv2.merge`, CLAHE (`clipLimit=2.0`,
`tileGridSize=(8,8)`), and `cv2.mean` (channel means as rationals). -/
structure Oracles where
  pilSharpness : Image → Image
  pilContrast : Image → Image
  pilColor : Image → Image
  bgr2gray : Image → Mat
  cascade : Mat → List Box
  bilateral : Image → Image
  gauss5 : Image → Image
  sharpenKernel : Image → Image
  bgr2hsvSplit : Image → Mat × Mat × Mat
  hsv2bgrMerge : Mat × Mat × Mat → Image
  bgr2labSplit : Image → Mat × Mat × Mat
  lab2bgrMerge : Mat × Mat × Mat → Image
  clahe : Mat → Mat
  meanBGR : Image → Rat × Rat × Rat

/-- `ImageEnhancer.enhance_basic` (image_enhancer.py lines 42-73):
BGR→RGB, the three PIL enhancement steps, RGB→BGR.  `Image.fromarray`
and `np.array` are value-identities. -/
def enhance_basic (orc : Oracles) (image : Image) : Image :=
  let img_rgb := mapPix swapCh02 image
  let pil_img := orc.pilSharpness img_rgb
  let pil_img := orc.pilContrast pil_img
  let pil_img := orc.pilColor pil_img
  mapPix swapCh02 pil_img

/-- `ImageEnhancer.enhance_skin` (image_enhancer.py lines 75-113).
Zero cascade detections return the input itself (lines 91-92);
otherwise the loop filters each face box of a copy of the image and
writes it back by slice assignment. -/
def enhance_skin (orc : Oracles) (image : Image) : Image :=
  let gray := orc.bgr2gray image
  let faces := orc.cascade gray
  if faces.isEmpty then image
  else
    faces.foldl (fun result b =>
      let face_roi := cropBox result b
      let face_roi := orc.bilateral face_roi
      let face_roi := orc.gauss5 face_roi
      let face_roi := orc.sharpenKernel face_roi
      pasteBox result b face_roi) image

/-- The per-face saturation update of image_enhancer.py lines 144-169.
The Python band offsets are `int(h*0.2)`, `int(h*0.25)`, `int(h*0.6)`,
`int(h*0.25)` computed in double precision; for every `h` in the machine
range of a detection (far below 2^50) these equal the integer floors
`h/5`, `h/4`, `3*h/5`, `h/4`, which is how they are embedded.  The
clamping at lines 154-157 is `max 0 (min · (s.h - 1))` and
`max 1 (min · (s.h - eye_y))`; in the degenerate case `s.h = 0`, Python
produces `max(0, min(y', -1)) = 0` and Lean's truncated subtraction
produces the same `0`. -/
def applyFaceBands (s : Mat) (b : Box) : Mat :=
  let eye_y := b.y + b.h / 5
  let eye_h := b.h / 4
  let lip_y := b.y + 3 * b.h / 5
  let lip_h := b.h / 4
  let eye_y := max 0 (min eye_y (s.h - 1))
  let eye_h := max 1 (min eye_h (s.h - eye_y))
  let lip_y := max 0 (min lip_y (s.h - 1))
  let lip_h := max 1 (min lip_h (s.h - lip_y))
  let s := if eye_y + eye_h ≤ s.h ∧ b.x + b.w ≤ s.w then
    clipAddRegion s eye_y eye_h b.x b.w 10 else s
  let s := if lip_y + lip_h ≤ s.h ∧ b.x + b.w ≤ s.w then
    clipAddRegion s lip_y lip_h b.x b.w 20 else s
  s

/-- `ImageEnhancer.enhance_facial_features` (image_enhancer.py lines
115-175).  Zero cascade detections return the input itself (lines
131-132); otherwise the saturation plane of the HSV split is updated per
face and the planes are merged back.  The `astype(np.uint8)` casts at
lines 139-141 are value-identities on 8-bit planes. -/
def enhance_facial_features (orc : Oracles) (image : Image) : Image :=
  let gray := orc.bgr2gray image
  let faces := orc.cascade gray
  if faces.isEmpty then image
  else
    let (hc, sc, vc) := orc.bgr2hsvSplit image
    let sc := faces.foldl applyFaceBands sc
    orc.hsv2bgrMerge (hc, sc, vc)

/-- Channel plane `c` of a BGR image (`cv2.split`). -/
def channelOf (img : Image) (c : Fin 3) : Mat :=
  ⟨img.h, img.w, fun i j =>
    match c with
    | ⟨0, _⟩ => (img.px i j).1
    | ⟨1, _⟩ => (img.px i j).2.1
    | ⟨2, _⟩ => (img.px i j).2.2⟩

/-- `cv2.merge` of three planes back into an image (shape of plane 0). -/
def mergeCh (b g r : Mat) : Image :=
  ⟨b.h, b.w, fun i j => (b.val i j, g.val i j, r.val i j)⟩

/-- The per-channel correction of image_enhancer.py line 203-204:
`corregido = np.clip(canal * (ratio*0.7 + 0.3), 0, 255).astype(np.uint8)`.
The float multiply is modelled in exact rational arithmetic; the
`astype` cast after the clip truncates towards zero. -/
def scaleClipChannel (m : Mat) (ratio : Rat) : Mat :=
  ⟨m.h, m.w, fun i j =>
    (max 0 (min 255 ((m.val i j : Rat) * (ratio * (7/10) + 3/10)))).floor.toNat⟩

/-- `ImageEnhancer.enhance_color_correction` (image_enhancer.py lines
177-211).  `mean_origen`/`mean_destino` are the channel means of the
source and target images; each channel of the result is scaled by the
blended ratio.  The alpha branch of lines 207-208 cannot fire for
three-channel images. -/
def enhance_color_correction (orc : Oracles)
    (result_img target_img source_img : Image) : Image :=
  let mean_origen := orc.meanBGR source_img
  let mean_destino := orc.meanBGR target_img
  let ratio0 := if mean_origen.1 > 0 then mean_destino.1 / mean_origen.1 else 1
  let ratio1 := if mean_origen.2.1 > 0 then mean_destino.2.1 / mean_origen.2.1 else 1
  let ratio2 := if mean_origen.2.2 > 0 then mean_destino.2.2 / mean_origen.2.2 else 1
  mergeCh
    (scaleClipChannel (channelOf result_img 0) ratio0)
    (scaleClipChannel (channelOf result_img 1) ratio1)
    (scaleClipChannel (channelOf result_img 2) ratio2)

/-- `ImageEnhancer.enhance_hdr_effect` (image_enhancer.py lines 213-246):
CLAHE on the LAB luminance plane, merge back, then a flat saturating
`cv2.add(s, 10)` on the HSV saturation plane. -/
def enhance_hdr_effect (orc : Oracles) (image : Image) : Image :=
  let (l, a, b) := orc.bgr2labSplit image
  let l := orc.clahe l
  let imagen_hdr := orc.lab2bgrMerge (l, a, b)
  let (hc, sc, vc) := orc.bgr2hsvSplit imagen_hdr
  let sc := cvAddSat sc 10
  orc.hsv2bgrMerge (hc, sc, vc)

/-- The quality ladder of face_swap_app.py lines 140-152: basic
enhancement at level ≥ 1, skin and facial features at level ≥ 2, colour
correction and HDR at level ≥ 3, threaded through `result_img`. -/
def apply_quality_chain (orc : Oracles) (quality_level : Int)
    (result_img target_img source_img : Image) : Image :=
  let result_img := if quality_level ≥ 1 then enhance_basic orc result_img else result_img
  let result_img := if quality_level ≥ 2 then
    enhance_facial_features orc (enhance_skin orc result_img) else result_img
  if quality_level ≥ 3 then
    enhance_hdr_effect orc (enhance_color_correction orc result_img target_img source_img)
  else result_img

/-- Characters after the last path separator: `os.path.basename` on a
POSIX path, acting on the character list. -/
def basenameChars (cs : List Char) : List Char :=
  ((cs.reverse.takeWhile (fun c => c ≠ '/')).reverse)

/-- `os.path.basename` (posixpath): the substring after the last slash. -/
def basename (p : String) : String :=
  String.mk (basenameChars p.toList)

/-- Index of the last dot of a character list, if any. -/
def lastDotIdx (cs : List Char) : Option Nat :=
  match cs.reverse.findIdx? (fun c => c = '.') with
  | none => none
  | some k => some (cs.length - 1 - k)

/-- Root of `os.path.splitext` on a bare filename (no separators):
CPython splits at the last dot unless every character before it is a
dot (so a leading-dot name like `.bashrc` keeps its dot). -/
def splitextRoot (cs : List Char) : List Char :=
  match lastDotIdx cs with
  | none => cs
  | some i => if (cs.take i).all (fun c => c = '.') then cs else cs.take i

/-- `os.path.splitext(os.path.basename(p))[0]` as used at
face_swap_app.py lines 155-156: the basename with its extension
removed. -/
def stem (p : String) : String :=
  String.mk (splitextRoot (basename p).toList)

/-- Whether a string's final character is the path separator. -/
def endsWithSep (a : String) : Prop :=
  a.toList.getLast? = some '/'

instance (a : String) : Decidable (endsWithSep a) :=
  inferInstanceAs (Decidable (a.toList.getLast? = some '/'))

/-- Whether a string's first character is the path separator
(`b.startswith('/')`, i.e. `b` is an absolute POSIX path). -/
def startsWithSep (b : String) : Prop :=
  b.toList.head? = some '/'

instance (b : String) : Decidable (startsWithSep b) :=
  inferInstanceAs (Decidable (b.toList.head? = some '/'))

/-- `os.path.join(a, b)` (posixpath) for a relative `b` component. -/
def path_join (a b : String) : String :=
  if startsWithSep b then b
  else if a = "" ∨ endsWithSep a then a ++ b
  else a ++ "/" ++ b

/-- Python list indexing `xs[i]`: negative indices count from the end,
out-of-range indices raise `IndexError`. -/
def pyIndex (xs : List String) (i : Int) : Except PyErr String :=
  let n : Int := xs.length
  let j := if i < 0 then i + n else i
  if 0 ≤ j ∧ j < n then Except.ok (xs.getD j.toNat "") else Except.error PyErr.exc

/-- The literal `["BASICO", "HD", "ULTRA_HD"]` of face_swap_app.py
line 157. -/
def qualityNames : List String := ["BASICO", "HD", "ULTRA_HD"]

/-- Environment of one `FaceSwapApp.process_face_swap` run: the
configured output directory, `cv2.imread` (returns `None` on a decode
failure instead of raising), the InsightFace detector call used inside
`detect_faces`, the swap-model call used inside `swap_face`, the
enhancement oracles and `cv2.imwrite` (which may raise). -/
structure Env where
  outputDir : String
  imread : String → Option Image
  appGet : Image → Except PyErr (List Face)
  swapperGet : Image → Face → Face → Except PyErr Image
  orc : Oracles
  imwrite : String → Image → Except PyErr Bool

/-- Body of the `try` block of `FaceSwapApp.process_face_swap`
(face_swap_app.py lines 112-168), together with the list of
`(path, image)` pairs handed to `cv2.imwrite`.  Loading, the
empty-face-list guard, the swap, the quality ladder, the output-name
computation (including Python's negative-index semantics for
`[...][quality_level - 1]`) and the final write follow the source
order; an `Except.error` result is an uncaught exception inside the
block. -/
def process_body (env : Env) (source_img_path target_img_path : String)
    (quality_level : Int) :
    Except PyErr (Option String) × List (String × Image) :=
  match env.imread source_img_path, env.imread target_img_path with
  | some source_img, some target_img =>
    match detect_faces env.appGet (some source_img),
          detect_faces env.appGet (some target_img) with
    | source_face0 :: _, target_face0 :: _ =>
      let result_img := swap_face env.swapperGet target_img target_face0
        source_img source_face0
      let result_img := apply_quality_chain env.orc quality_level
        result_img target_img source_img
      let source_name := stem source_img_path
      let target_name := stem target_img_path
      match pyIndex qualityNames (quality_level - 1) with
      | Except.error e => (Except.error e, [])
      | Except.ok quality_suffix =>
        let result_filename :=
          quality_suffix ++ "_" ++ target_name ++ "_con_rostro_de_" ++
            source_name ++ ".png"
        let result_path := path_join env.outputDir result_filename
        match env.imwrite result_path result_img with
        | Except.ok _ => (Except.ok (some result_path), [(result_path, result_img)])
        | Except.error e => (Except.error e, [(result_path, result_img)])
    | _, _ => (Except.ok none, [])
  | _, _ => (Except.ok none, [])

/-- `FaceSwapApp.process_face_swap` (face_swap_app.py lines 100-172):
the `try` body with its blanket `except` (lines 170-172), which logs
and returns `None` on any exception. -/
def process_face_swap (env : Env) (source_img_path target_img_path : String)
    (quality_level : Int) : Option String × List (String × Image) :=
  match process_body env source_img_path target_img_path quality_level with
  | (Except.ok r, ws) => (r, ws)
  | (Except.error _, ws) => (none, ws)

/-- Raw bytes of a downloaded file. -/
abbrev ByteData := List Nat

/-- Environment of one `FaceSwapApp.verify_model` call: whether
`os.path.exists(self.model_path)` holds, and the three fallible
external steps (`os.makedirs`, `urllib.request.urlopen` + `read`, and
opening/writing the destination file). -/
structure VerifyEnv where
  pathExists : Bool
  makedirs : Except PyErr Unit
  urlopen : String → Except PyErr ByteData
  fileWrite : ByteData → Except PyErr Unit

/-- Side effects of a `verify_model` call: how many `os.makedirs`
calls ran, which URLs were fetched over HTTP, and which byte bodies
were written to the model path. -/
structure VerifyEffects where
  mkdirCalls : Nat
  httpGets : List String
  fileWrites : List ByteData
deriving DecidableEq, Repr

/-- The fixed model URL of face_swap_app.py line 197. -/
def model_url : String :=
  "https://huggingface.co/hacksider/inswapper_128/resolve/main/inswapper_128.onnx"

/-- `FaceSwapApp.verify_model` (face_swap_app.py lines 174-209): an
existing model file returns `True` at once; otherwise parent
directories are created, the fixed URL is fetched and the body is
written, with every exception of the `try` block caught and turned
into `False`.  Effects are recorded when the corresponding call is
reached, whether or not it then raises. -/
def verify_model (env : VerifyEnv) : Bool × VerifyEffects :=
  if env.pathExists then (true, ⟨0, [], []⟩)
  else
    match env.makedirs with
    | Except.error _ => (false, ⟨1, [], []⟩)
    | Except.ok _ =>
      match env.urlopen model_url with
      | Except.error _ => (false, ⟨1, [model_url], []⟩)
      | Except.ok contents =>
        match env.fileWrite contents with
        | Except.error _ => (false, ⟨1, [model_url], []⟩)
        | Except.ok _ => (true, ⟨1, [model_url], [contents]⟩)

/-- `ImageUtils.convert_to_pil` (image_utils.py lines 124-140):
`cv2.cvtColor(cv_image, cv2.COLOR_BGR2RGB)` followed by the
value-identity `Image.fromarray`. -/
def convert_to_pil (cv_image : Image) : Image :=
  mapPix swapCh02 cv_image

/-- `ImageUtils.convert_to_cv` (image_utils.py lines 142-158): the
value-identity `np.array` followed by
`cv2.cvtColor(rgb_image, cv2.COLOR_RGB2BGR)`. -/
def convert_to_cv (pil_image : Image) : Image :=
  mapPix swapCh02 pil_image

/-- Sum of absolute channel differences of two pixels. -/
def pixAbsDiff (p q : Pix) : Nat :=
  ((p.1 : Int) - q.1).natAbs + ((p.2.1 : Int) - q.2.1).natAbs +
    ((p.2.2 : Int) - q.2.2).natAbs

/-- Average absolute per-pixel-value difference of two same-shaped
images (`np.sum(np.abs(a - b)) / a.size`, with `size = 3*h*w`). -/
def avgAbsDiff (a b : Image) : Rat :=
  (∑ i ∈ Finset.range a.h, ∑ j ∈ Finset.range a.w,
    (pixAbsDiff (a.px i j) (b.px i j) : Rat)) / (3 * a.h * a.w)

/-- The PNG compression parameter of `ImageUtils.save_image`
(image_utils.py line 84): `min(9, 100 - quality // 10)` for a
non-negative `quality`. -/
def png_compression (quality : Nat) : Nat :=
  min 9 (100 - quality / 10)

/-!
Aliasing model for the enhancement stages.  A `Store` is the set of
live image arrays; a stage receives a reference to its input array and
may allocate new arrays or assign in place (`Store.set` is a numpy
slice assignment target).  Library calls (`cvtColor`, the PIL
enhancers, `bilateralFilter`, `GaussianBlur`, `filter2D`, `split`,
`merge`, `astype`, `np.clip`, `copy`) all return freshly allocated
arrays — that is documented numpy/OpenCV behaviour — so the embedding
allocates for them; the only in-place writes in the source are the
slice assignments into `result` (image_enhancer.py line 111) and into
the fresh saturation plane `s` (lines 163 and 169).  Because `s` never
aliases the input image, its updates are kept at value level.
-/

/-- Heap of live image arrays; a reference is an index. -/
structure Store where
  arrs : List Image

/-- Value of the array behind a reference. -/
def Store.get (σ : Store) (r : Nat) : Image :=
  σ.arrs.getD r default

/-- Allocate a fresh array, returning the new store and its reference. -/
def Store.alloc (σ : Store) (img : Image) : Store × Nat :=
  (⟨σ.arrs ++ [img]⟩, σ.arrs.length)

/-- In-place assignment to the array behind a reference. -/
def Store.set (σ : Store) (r : Nat) (img : Image) : Store :=
  ⟨σ.arrs.set r img⟩

/-- `enhance_basic` on the heap: every step allocates (conversions and
PIL enhancers return new arrays); nothing is assigned in place. -/
def enhance_basic_st (orc : Oracles) (σ : Store) (image : Nat) : Store × Nat :=
  let (σ, a1) := σ.alloc (mapPix swapCh02 (σ.get image))
  let (σ, a2) := σ.alloc (orc.pilSharpness (σ.get a1))
  let (σ, a3) := σ.alloc (orc.pilContrast (σ.get a2))
  let (σ, a4) := σ.alloc (orc.pilColor (σ.get a3))
  σ.alloc (mapPix swapCh02 (σ.get a4))

/-- `enhance_skin` on the heap: `result = image.copy()` allocates
(line 94), each loop iteration assigns the filtered face box back into
`result` in place (line 111), and the zero-detection branch returns
the input reference itself (line 92). -/
def enhance_skin_st (orc : Oracles) (σ : Store) (image : Nat) : Store × Nat :=
  let gray := orc.bgr2gray (σ.get image)
  let faces := orc.cascade gray
  if faces.isEmpty then (σ, image)
  else
    let (σ, result) := σ.alloc (σ.get image)
    let σ := faces.foldl (fun σ b =>
      let face_roi := cropBox (σ.get result) b
      let face_roi := orc.bilateral face_roi
      let face_roi := orc.gauss5 face_roi
      let face_roi := orc.sharpenKernel face_roi
      σ.set result (pasteBox (σ.get result) b face_roi)) σ
    (σ, result)

/-- `enhance_facial_features` on the heap: the zero-detection branch
returns the input reference itself (line 132); otherwise the stage
only writes into the fresh saturation plane of the HSV split and
allocates the merged output. -/
def enhance_facial_features_st (orc : Oracles) (σ : Store) (image : Nat) :
    Store × Nat :=
  let gray := orc.bgr2gray (σ.get image)
  let faces := orc.cascade gray
  if faces.isEmpty then (σ, image)
  else
    let (hc, sc, vc) := orc.bgr2hsvSplit (σ.get image)
    let sc := faces.foldl applyFaceBands sc
    σ.alloc (orc.hsv2bgrMerge (hc, sc, vc))

/-- `enhance_color_correction` on the heap: `cv2.split`, the channel
arithmetic, `np.clip`, `astype` and `cv2.merge` all produce new
arrays, so the stage reads its three inputs and allocates its
output. -/
def enhance_color_correction_st (orc : Oracles) (σ : Store)
    (result_img target_img source_img : Nat) : Store × Nat :=
  σ.alloc (enhance_color_correction orc (σ.get result_img)
    (σ.get target_img) (σ.get source_img))

/-- `enhance_hdr_effect` on the heap: conversions, CLAHE, `cv2.add`
and merges all produce new arrays, so the stage reads its input and
allocates its output. -/
def enhance_hdr_effect_st (orc : Oracles) (σ : Store) (image : Nat) :
    Store × Nat :=
  σ.alloc (enhance_hdr_effect orc (σ.get image))

/-!
Shared concrete fixtures used by the witness theorems.
-/

/-- A concrete 2×2 test image. -/
def imgW : Image := ⟨2, 2, fun _ _ => (1, 2, 3)⟩

/-- A concrete face record. -/
def faceW : Face := ⟨⟨0, 0, 1, 1⟩⟩

/-- A detector call that always raises. -/
def appGetErr : Image → Except PyErr (List Face) := fun _ => Except.error PyErr.exc

/-- A swap-model call that always raises. -/
def swapperGetErr : Image → Face → Face → Except PyErr Image :=
  fun _ _ _ => Except.error PyErr.exc

/-- Environment for the C5 witness: the model file already exists. -/
def envV : VerifyEnv :=
  ⟨true, Except.ok (), fun _ => Except.ok [1, 2, 3], fun _ => Except.ok ()⟩

/-- Concrete oracle record used by the witness and counterexample
environments.  The three PIL fields are the faithful models of the
library steps they stand for (`pilSharpness13` / `pilContrast11` /
`pilColor11` above).  The cascade finds nothing — the real
`detectMultiScale` finds no face on the tiny test images — and the
remaining OpenCV fields (identity filters, channel-projection
conversions) are never reached by the traced quality-1 runs. -/
def orcX : Oracles where
  pilSharpness := pilSharpness13
  pilContrast := pilContrast11
  pilColor := pilColor11
  bgr2gray := fun i => ⟨i.h, i.w, fun p q => (i.px p q).1⟩
  cascade := fun _ => []
  bilateral := fun i => i
  gauss5 := fun i => i
  sharpenKernel := fun i => i
  bgr2hsvSplit := fun i => (channelOf i 0, channelOf i 1, channelOf i 2)
  hsv2bgrMerge := fun t => mergeCh t.1 t.2.1 t.2.2
  bgr2labSplit := fun i => (channelOf i 0, channelOf i 1, channelOf i 2)
  lab2bgrMerge := fun t => mergeCh t.1 t.2.1 t.2.2
  clahe := fun m => m
  meanBGR := fun _ => (1, 1, 1)

/-- Source-path literal for witness runs. -/
def SPX : String := "s.png"

/-- Target-path literal for witness runs. -/
def TPX : String := "t.png"

/-- Output-directory literal for witness runs. -/
def OUTD : String := "output"

/-- Environment whose image decoding always fails. -/
def envN : Env :=
  ⟨OUTD, fun _ => none, fun _ => Except.ok [], swapperGetErr, orcX,
    fun _ _ => Except.ok true⟩

/-- One-array heap for the C8 witness. -/
def storeW : Store := ⟨[imgW]⟩

/-- In-bounds cascade box for the C7 witness. -/
def boxW7 : Box := ⟨0, 0, 8, 8⟩

/-- Constant saturation plane for the C7 witness. -/
def matW7 : Mat := ⟨10, 10, fun _ _ => 100⟩

/-- A 10×10 test image for the C7 witness. -/
def imgW7 : Image := ⟨10, 10, fun _ _ => (50, 60, 70)⟩

/-- Oracles whose cascade finds exactly one box and whose HSV split is
fixed, for the C7 witness. -/
def orcW7 : Oracles :=
  { orcX with
    cascade := fun _ => [boxW7]
    bgr2hsvSplit := fun _ => (matW7, matW7, matW7) }

/-- Source image for the concrete orchestration runs. -/
def srcX : Image := ⟨1, 1, fun _ _ => (9, 9, 9)⟩

/-- Target image for the concrete orchestration runs. -/
def tgtX : Image := ⟨1, 1, fun _ _ => (5, 5, 5)⟩

/-- Environment for a successful run whose swap model always raises:
both images decode, one face is found in each, and the write
succeeds. -/
def envX : Env :=
  ⟨OUTD,
    fun pth => if pth = SPX then some srcX
      else if pth = TPX then some tgtX else none,
    fun _ => Except.ok [faceW], swapperGetErr, orcX,
    fun _ _ => Except.ok true⟩

/-- The output path produced by the `envX` run at quality 1. -/
def outPathX : String := "output/BASICO_t_con_rostro_de_s.png"

/-- The image written by the `envX` run at quality 1. -/
def wImgX : Image := apply_quality_chain orcX 1 tgtX tgtX srcX

/-- Non-uniform 1×2 gray target image, pixels (0,0,0) and
(200,200,200).  On it the real `enhance_basic` is traceable by hand:
with one row there are no SMOOTH interior pixels, so Sharpness(1.3)
is the identity; the grayscale mean is (0+200)/2 = 100, so
Contrast(1.1) sends pixel (0,1) to 100 + 1.1·(200-100) = 210 (the
float32 computation lands on 210.0, cast to 210) and pixel (0,0) to
the clip at 0; both resulting pixels are gray, so Color(1.1) is the
identity; the BGR↔RGB swaps are identities on gray pixels. -/
def tgtY : Image := ⟨1, 2, fun _ j => if j = 0 then (0, 0, 0) else (200, 200, 200)⟩

/-- Source image for the counterexample run. -/
def srcY : Image := ⟨1, 1, fun _ _ => (50, 50, 50)⟩

/-- Environment of the counterexample run: both images decode, one
face in each, the swap model raises, the write succeeds, and the PIL
oracles are the faithful library models of `orcX`. -/
def envY : Env :=
  ⟨OUTD,
    fun pth => if pth = SPX then some srcY
      else if pth = TPX then some tgtY else none,
    fun _ => Except.ok [faceW], swapperGetErr, orcX,
    fun _ _ => Except.ok true⟩

/-- The image written by the `envY` run at quality 1. -/
def wImgY : Image := apply_quality_chain orcX 1 tgtY tgtY srcY

/-!
Helper lemmas about the heap model.
-/

theorem Store.get_alloc (σ : Store) (img : Image) (r : Nat)
    (h : r < σ.arrs.length) : (σ.alloc img).1.get r = σ.get r := by
  show (σ.arrs ++ [img]).getD r default = σ.arrs.getD r default
  exact List.getD_append _ _ _ _ h

theorem Store.length_alloc (σ : Store) (img : Image) :
    (σ.alloc img).1.arrs.length = σ.arrs.length + 1 := by
  simp [Store.alloc]

theorem Store.get_set_ne (σ : Store) (t : Nat) (img : Image) (r : Nat)
    (h : r ≠ t) : (σ.set t img).get r = σ.get r := by
  show (σ.arrs.set t img).getD r default = σ.arrs.getD r default
  simp only [List.getD_eq_getD_get?, List.get?_eq_getElem?]
  rw [List.getElem?_set_ne (Ne.symm h)]

theorem foldl_set_get_ne {β : Type} (g : Store → β → Image) (t r : Nat)
    (h : r ≠ t) :
    ∀ (bs : List β) (σ : Store),
      (bs.foldl (fun σ b => σ.set t (g σ b)) σ).get r = σ.get r
  | [], _ => rfl
  | b :: bs, σ => by
    rw [List.foldl_cons, foldl_set_get_ne g t r h bs _,
      Store.get_set_ne _ _ _ _ h]

/-- C10: for every quality value q with 0 <= q <= 100, the PNG
compression parameter computed by save_image, min(9, 100 - q // 10),
equals 9; hence the PNG branch always writes with compression level 9
regardless of the quality argument. -/
theorem png_compression_always_nine (quality : Nat) (h : quality ≤ 100) :
    png_compression quality = 9 := by
  unfold png_compression
  exact Nat.min_eq_left (by omega)

/-- Witness for C10 at the default quality 95. -/
theorem png_compression_always_nine_witness :
    95 ≤ 100 ∧ png_compression 95 = 9 :=
  ⟨by decide, png_compression_always_nine 95 (by decide)⟩

/-- C2: for every target image, target face, source image, and source
face, if the underlying swap-model call fails internally (raises),
swap_face returns an image pixel-identical to the original target image
and does not itself raise (it is total by construction). -/
theorem swap_face_error_returns_target
    (swapperGet : Image → Face → Face → Except PyErr Image)
    (target_img : Image) (target_face : Face)
    (source_img : Image) (source_face : Face) (e : PyErr)
    (h : swapperGet target_img target_face source_face = Except.error e) :
    swap_face swapperGet target_img target_face source_img source_face =
      target_img := by
  simp [swap_face, h]

/-- Witness for C2: a raising swap model on a concrete image. -/
theorem swap_face_error_returns_target_witness :
    swapperGetErr imgW faceW faceW = Except.error PyErr.exc ∧
      swap_face swapperGetErr imgW faceW imgW faceW = imgW :=
  ⟨rfl, swap_face_error_returns_target swapperGetErr imgW faceW imgW faceW
    PyErr.exc rfl⟩

/-- C6: for every input, detect_faces returns a list sorted ascending by
bounding-box left edge x1, and returns an empty list, not an error,
when the input image is null or when the underlying detector call
fails. -/
theorem detect_faces_sorted_and_total
    (appGet : Image → Except PyErr (List Face)) (image : Option Image) :
    List.Sorted faceLe (detect_faces appGet image) ∧
    detect_faces appGet none = [] ∧
    (∀ img e, appGet img = Except.error e →
      detect_faces appGet (some img) = []) := by
  refine ⟨?_, rfl, ?_⟩
  · cases image with
    | none => simp [detect_faces]
    | some img =>
      cases h : appGet img with
      | error e => simp [detect_faces, h]
      | ok faces =>
        simpa [detect_faces, h] using List.sorted_insertionSort faceLe faces
  · intro img e h
    simp [detect_faces, h]

/-- Witness for C6: a raising detector call on a concrete image. -/
theorem detect_faces_sorted_and_total_witness :
    appGetErr imgW = Except.error PyErr.exc ∧
      detect_faces appGetErr (some imgW) = [] :=
  ⟨rfl, (detect_faces_sorted_and_total appGetErr (some imgW)).2.2 imgW
    PyErr.exc rfl⟩

/-- C9: for every 3-channel image, the round trip
convert_to_cv(convert_to_pil(image)) yields an image of the same shape
whose average absolute per-pixel difference from the original is less
than 1.0 (the BGR↔RGB conversions are exact channel permutations, so
the round trip is in fact the identity). -/
theorem convert_roundtrip_within_tolerance (image : Image) :
    convert_to_cv (convert_to_pil image) = image ∧
    (convert_to_cv (convert_to_pil image)).h = image.h ∧
    (convert_to_cv (convert_to_pil image)).w = image.w ∧
    avgAbsDiff image (convert_to_cv (convert_to_pil image)) < 1 := by
  have h : convert_to_cv (convert_to_pil image) = image := rfl
  refine ⟨h, by rw [h], by rw [h], ?_⟩
  rw [h]
  simp [avgAbsDiff, pixAbsDiff]

/-- C5: verify_model returns true at once with no network access when
the model file exists; otherwise it creates the parent directories,
performs one HTTP GET against the fixed model URL, writes the response
body, and returns true on success and false (never raising, by
totality of the embedding) on any I/O or network failure. -/
theorem verify_model_contract (env : VerifyEnv) :
    (env.pathExists = true → verify_model env = (true, ⟨0, [], []⟩)) ∧
    (env.pathExists = false → ∀ d,
      env.makedirs = Except.ok () → env.urlopen model_url = Except.ok d →
      env.fileWrite d = Except.ok () →
      verify_model env = (true, ⟨1, [model_url], [d]⟩)) ∧
    (env.pathExists = false → env.makedirs = Except.error PyErr.exc →
      (verify_model env).1 = false) ∧
    (env.pathExists = false → env.urlopen model_url = Except.error PyErr.exc →
      (verify_model env).1 = false) ∧
    (env.pathExists = false → ∀ d, env.urlopen model_url = Except.ok d →
      env.fileWrite d = Except.error PyErr.exc →
      (verify_model env).1 = false) := by
  refine ⟨?_, ?_, ?_, ?_, ?_⟩
  · intro h
    simp [verify_model, h]
  · intro h d h1 h2 h3
    simp [verify_model, h, h1, h2, h3]
  · intro h h1
    simp [verify_model, h, h1]
  · intro h h1
    cases h2 : env.makedirs with
    | error e => simp [verify_model, h, h2]
    | ok u => simp [verify_model, h, h1, h2]
  · intro h d h1 h2
    cases h3 : env.makedirs with
    | error e => simp [verify_model, h, h3]
    | ok u => simp [verify_model, h, h1, h2, h3]

/-- Witness for C5: an existing model file returns true with no
network or file-system effects. -/
theorem verify_model_contract_witness :
    envV.pathExists = true ∧ verify_model envV = (true, ⟨0, [], []⟩) :=
  ⟨rfl, (verify_model_contract envV).1 rfl⟩

/-- C1: for every source path, target path, and quality level, the
orchestration returns none rather than raising when either image fails
to decode or either detected-face list is empty (and in those cases it
returns before any output write), and any exception raised inside the
try block surfaces as none. -/
theorem process_face_swap_error_handling (env : Env) (sp tp : String)
    (q : Int) :
    ((env.imread sp = none ∨ env.imread tp = none) →
      process_face_swap env sp tp q = (none, [])) ∧
    (∀ s t, env.imread sp = some s → env.imread tp = some t →
      (detect_faces env.appGet (some s) = [] ∨
        detect_faces env.appGet (some t) = []) →
      process_face_swap env sp tp q = (none, [])) ∧
    (∀ e ws, process_body env sp tp q = (Except.error e, ws) →
      (process_face_swap env sp tp q).1 = none) := by
  refine ⟨?_, ?_, ?_⟩
  · intro h
    rcases h with h | h
    · cases h2 : env.imread tp <;>
        simp [process_face_swap, process_body, h, h2]
    · cases h2 : env.imread sp <;>
        simp [process_face_swap, process_body, h, h2]
  · intro s t hs ht h
    rcases h with h | h
    · cases h2 : detect_faces env.appGet (some t) <;>
        simp [process_face_swap, process_body, hs, ht, h, h2]
    · cases h2 : detect_faces env.appGet (some s) <;>
        simp [process_face_swap, process_body, hs, ht, h, h2]
  · intro e ws h
    simp [process_face_swap, h]

/-- Witness for C1: a failed decode returns none with no write. -/
theorem process_face_swap_error_handling_witness :
    (envN.imread SPX = none ∨ envN.imread TPX = none) ∧
      process_face_swap envN SPX TPX 2 = (none, []) :=
  ⟨Or.inl rfl,
    (process_face_swap_error_handling envN SPX TPX 2).1 (Or.inl rfl)⟩

/-- C8: every enhancement stage leaves the pixel contents of its input
arrays unchanged after the call — its result is produced in a fresh
array rather than by mutating the input in place. -/
theorem enhancement_stages_do_not_mutate_input (orc : Oracles) (σ : Store)
    (r rt rs : Nat) (hr : r < σ.arrs.length) (hrt : rt < σ.arrs.length)
    (hrs : rs < σ.arrs.length) :
    (enhance_basic_st orc σ r).1.get r = σ.get r ∧
    (enhance_skin_st orc σ r).1.get r = σ.get r ∧
    (enhance_facial_features_st orc σ r).1.get r = σ.get r ∧
    ((enhance_color_correction_st orc σ r rt rs).1.get r = σ.get r ∧
      (enhance_color_correction_st orc σ r rt rs).1.get rt = σ.get rt ∧
      (enhance_color_correction_st orc σ r rt rs).1.get rs = σ.get rs) ∧
    (enhance_hdr_effect_st orc σ r).1.get r = σ.get r := by
  refine ⟨?_, ?_, ?_, ⟨?_, ?_, ?_⟩, ?_⟩
  · simp only [enhance_basic_st]
    rw [Store.get_alloc, Store.get_alloc, Store.get_alloc, Store.get_alloc,
      Store.get_alloc]
    all_goals (try simp only [Store.length_alloc])
    all_goals omega
  · by_cases hg : (orc.cascade (orc.bgr2gray (σ.get r))).isEmpty = true
    · simp [enhance_skin_st, hg]
    · simp only [enhance_skin_st]
      rw [show σ.alloc (σ.get r) =
        (⟨σ.arrs ++ [σ.get r]⟩, σ.arrs.length) from rfl]
      rw [if_neg hg]
      exact (foldl_set_get_ne _ σ.arrs.length r (by omega) _ _).trans
        (Store.get_alloc σ _ r hr)
  · by_cases hf : (orc.cascade (orc.bgr2gray (σ.get r))).isEmpty = true
    · simp [enhance_facial_features_st, hf]
    · simp only [enhance_facial_features_st, hf, if_false]
      exact Store.get_alloc σ _ r hr
  · exact Store.get_alloc σ _ r hr
  · exact Store.get_alloc σ _ rt hrt
  · exact Store.get_alloc σ _ rs hrs
  · exact Store.get_alloc σ _ r hr

/-- Witness for C8: the skin stage leaves the stored input unchanged. -/
theorem enhancement_stages_do_not_mutate_input_witness :
    0 < storeW.arrs.length ∧
      (enhance_skin_st orcX storeW 0).1.get 0 = storeW.get 0 :=
  ⟨by decide,
    (enhancement_stages_do_not_mutate_input orcX storeW 0 0 0 (by decide)
      (by decide) (by decide)).2.1⟩

/-- C7: at quality level 2, for a face box (x, y, w, h) found by the
cascade detector inside the image bounds (with h ≥ 4 so the Python
band clamps are inactive, as for every real cascade detection), the
facial-features stage raises HSV saturation by +10 on the band of rows
[y + h/5, y + h/5 + h/4) and by +20 on the band of rows
[y + 3h/5, y + 3h/5 + h/4), each over columns [x, x + w), saturating
at 255; with zero cascade detections the stage returns its input
unchanged. -/
theorem enhance_facial_features_bands (orc : Oracles) (image : Image)
    (b : Box) (hm sm vm : Mat)
    (hcas : orc.cascade (orc.bgr2gray image) = [b])
    (hsplit : orc.bgr2hsvSplit image = (hm, sm, vm))
    (hx : b.x + b.w ≤ sm.w) (hy : b.y + b.h ≤ sm.h) (hh : 4 ≤ b.h) :
    (∀ img2, orc.cascade (orc.bgr2gray img2) = [] →
      enhance_facial_features orc img2 = img2) ∧
    enhance_facial_features orc image =
      orc.hsv2bgrMerge (hm, applyFaceBands sm b, vm) ∧
    ∀ i j, (applyFaceBands sm b).val i j =
      if b.y + b.h / 5 ≤ i ∧ i < b.y + b.h / 5 + b.h / 4 ∧
          b.x ≤ j ∧ j < b.x + b.w then
        min 255 (sm.val i j + 10)
      else if b.y + 3 * b.h / 5 ≤ i ∧ i < b.y + 3 * b.h / 5 + b.h / 4 ∧
          b.x ≤ j ∧ j < b.x + b.w then
        min 255 (sm.val i j + 20)
      else sm.val i j := by
  refine ⟨?_, ?_, ?_⟩
  · intro img2 h
    simp [enhance_facial_features, h]
  · simp [enhance_facial_features, hcas, hsplit]
  · intro i j
    have hey : max 0 (min (b.y + b.h / 5) (sm.h - 1)) = b.y + b.h / 5 := by
      omega
    have heh : max 1 (min (b.h / 4) (sm.h - (b.y + b.h / 5))) = b.h / 4 := by
      omega
    have hly : max 0 (min (b.y + 3 * b.h / 5) (sm.h - 1)) =
        b.y + 3 * b.h / 5 := by omega
    have hlh : max 1 (min (b.h / 4) (sm.h - (b.y + 3 * b.h / 5))) =
        b.h / 4 := by omega
    simp only [applyFaceBands, hey, heh, hly, hlh]
    rw [if_pos (show b.y + b.h / 5 + b.h / 4 ≤ sm.h ∧ b.x + b.w ≤ sm.w from
      by constructor <;> omega)]
    rw [if_pos (show b.y + 3 * b.h / 5 + b.h / 4 ≤
        (clipAddRegion sm (b.y + b.h / 5) (b.h / 4) b.x b.w 10).h ∧
        b.x + b.w ≤ (clipAddRegion sm (b.y + b.h / 5) (b.h / 4) b.x b.w 10).w
      from by simp only [clipAddRegion]; constructor <;> omega)]
    simp only [clipAddRegion]
    by_cases hE : b.y + b.h / 5 ≤ i ∧ i < b.y + b.h / 5 + b.h / 4 ∧
        b.x ≤ j ∧ j < b.x + b.w <;>
      by_cases hL : b.y + 3 * b.h / 5 ≤ i ∧ i < b.y + 3 * b.h / 5 + b.h / 4 ∧
        b.x ≤ j ∧ j < b.x + b.w
    · exfalso
      omega
    · simp [hE, hL]
      intro h1 h2
      exfalso
      omega
    · have hrow : ¬(b.y + b.h / 5 ≤ i ∧ i < b.y + b.h / 5 + b.h / 4) := by
        omega
      simp [hE, hL, hrow]
    · simp [hE, hL]

/-- Witness for C7: one concrete in-bounds cascade detection. -/
theorem enhance_facial_features_bands_witness :
    orcW7.cascade (orcW7.bgr2gray imgW7) = [boxW7] ∧
    orcW7.bgr2hsvSplit imgW7 = (matW7, matW7, matW7) ∧
    boxW7.x + boxW7.w ≤ matW7.w ∧ boxW7.y + boxW7.h ≤ matW7.h ∧
    4 ≤ boxW7.h ∧
    enhance_facial_features orcW7 imgW7 =
      orcW7.hsv2bgrMerge (matW7, applyFaceBands matW7 boxW7, matW7) :=
  ⟨rfl, rfl, by decide, by decide, by decide,
    (enhance_facial_features_bands orcW7 imgW7 boxW7 matW7 matW7 matW7 rfl
      rfl (by decide) (by decide) (by decide)).2.1⟩

theorem process_body_ok_path (env : Env) (sp tp : String) (q : Int)
    (p : String) (ws : List (String × Image))
    (hb : process_body env sp tp q = (Except.ok (some p), ws)) :
    ∃ suffix, pyIndex qualityNames (q - 1) = Except.ok suffix ∧
      p = path_join env.outputDir
        (suffix ++ "_" ++ stem tp ++ "_con_rostro_de_" ++ stem sp ++
          ".png") := by
  unfold process_body at hb
  split at hb
  · split at hb
    · split at hb
      · exact absurd hb (by simp)
      · rename_i suffix hsuffix
        simp only [] at hb
        split at hb
        · simp only [Prod.mk.injEq, Except.ok.injEq, Option.some.injEq] at hb
          exact ⟨suffix, hsuffix, hb.1.symm⟩
        · exact absurd hb (by simp)
    · exact absurd hb (by simp)
  · exact absurd hb (by simp)

/-- C4: every successful run with quality level q ∈ {1,2,3} returns the
path of a file named TIER_{target-stem}_con_rostro_de_{source-stem}.png
in the output directory, with TIER = BASICO / HD / ULTRA_HD for
q = 1 / 2 / 3 and the stems the extension-stripped basenames of the
two input paths. -/
theorem process_output_filename (env : Env) (sp tp : String) (q : Int)
    (p : String) (ws : List (String × Image)) (hq : q = 1 ∨ q = 2 ∨ q = 3)
    (h : process_face_swap env sp tp q = (some p, ws)) :
    (q = 1 → p = path_join env.outputDir
      ("BASICO" ++ "_" ++ stem tp ++ "_con_rostro_de_" ++ stem sp ++
        ".png")) ∧
    (q = 2 → p = path_join env.outputDir
      ("HD" ++ "_" ++ stem tp ++ "_con_rostro_de_" ++ stem sp ++
        ".png")) ∧
    (q = 3 → p = path_join env.outputDir
      ("ULTRA_HD" ++ "_" ++ stem tp ++ "_con_rostro_de_" ++ stem sp ++
        ".png")) := by
  have hb : process_body env sp tp q = (Except.ok (some p), ws) := by
    unfold process_face_swap at h
    split at h
    · rename_i r ws2 heq
      simp only [Prod.mk.injEq] at h
      rw [h.1, h.2] at heq
      exact heq
    · rename_i e ws2 heq
      simp only [Prod.mk.injEq] at h
      exact absurd h.1 (by simp)
  obtain ⟨suffix, hsuffix, hpath⟩ := process_body_ok_path env sp tp q p ws hb
  refine ⟨?_, ?_, ?_⟩ <;> intro hqv <;> subst hqv
  · have hfix : pyIndex qualityNames ((1 : Int) - 1) = Except.ok "BASICO" :=
      rfl
    injection hfix.symm.trans hsuffix with hs3
    rw [← hs3] at hpath
    exact hpath
  · have hfix : pyIndex qualityNames ((2 : Int) - 1) = Except.ok "HD" := rfl
    injection hfix.symm.trans hsuffix with hs3
    rw [← hs3] at hpath
    exact hpath
  · have hfix : pyIndex qualityNames ((3 : Int) - 1) = Except.ok "ULTRA_HD" :=
      rfl
    injection hfix.symm.trans hsuffix with hs3
    rw [← hs3] at hpath
    exact hpath

/-- Witness for C4: the concrete quality-1 run returns the expected
path. -/
theorem process_output_filename_witness :
    ((1 : Int) = 1 ∨ (1 : Int) = 2 ∨ (1 : Int) = 3) ∧
    process_face_swap envX SPX TPX 1 = (some outPathX, [(outPathX, wImgX)]) ∧
    outPathX = path_join envX.outputDir
      ("BASICO" ++ "_" ++ stem TPX ++ "_con_rostro_de_" ++ stem SPX ++
        ".png") :=
  ⟨Or.inl rfl, rfl,
    (process_output_filename envX SPX TPX 1 outPathX [(outPathX, wImgX)]
      (Or.inl rfl) rfl).1 rfl⟩

/-- C3, amended: when both images decode, both face lists are
non-empty and the swap-model call raises, the run proceeds and every
image it hands to cv2.imwrite equals the enhancement chain for the
requested quality applied to the pre-swap target image — the swap step
itself degrades to the original target, but the enhancement stages
still run on it, so the written output is pixel-identical to the
pre-swap target only when that chain is the identity. -/
theorem process_swap_failure_writes_enhanced_target (env : Env)
    (sp tp : String) (q : Int) (s t : Image) (sf0 tf0 : Face)
    (sfs tfs : List Face) (e : PyErr)
    (h1 : env.imread sp = some s) (h2 : env.imread tp = some t)
    (h3 : detect_faces env.appGet (some s) = sf0 :: sfs)
    (h4 : detect_faces env.appGet (some t) = tf0 :: tfs)
    (h5 : env.swapperGet t tf0 sf0 = Except.error e) :
    ∀ pr ∈ (process_face_swap env sp tp q).2,
      pr.2 = apply_quality_chain env.orc q t t s := by
  have hsw : swap_face env.swapperGet t tf0 s sf0 = t := by
    simp [swap_face, h5]
  have hres : (process_face_swap env sp tp q).2 = [] ∨
      ∃ ps, (process_face_swap env sp tp q).2 =
        [(ps, apply_quality_chain env.orc q t t s)] := by
    unfold process_face_swap process_body
    simp only [h1, h2, h3, h4, hsw]
    rcases hidx : pyIndex qualityNames (q - 1) with e2 | suffix
    · simp [hidx]
    · rcases himw : env.imwrite
        (path_join env.outputDir (suffix ++ "_" ++ stem tp ++
          "_con_rostro_de_" ++ stem sp ++ ".png"))
        (apply_quality_chain env.orc q t t s) with e3 | bres
      · simp only [hidx, himw]
        exact Or.inr ⟨_, rfl⟩
      · simp only [hidx, himw]
        exact Or.inr ⟨_, rfl⟩
  intro pr hpr
  rcases hres with hres | ⟨ps, hres⟩
  · rw [hres] at hpr
    simp at hpr
  · rw [hres] at hpr
    rw [List.mem_singleton.mp hpr]

/-- Counterexample to C3 as stated: in the `envY` run the swap model
raises, the orchestration proceeds past the swap and succeeds, and the
written image is not pixel-identical to the pre-swap target — the
quality-1 contrast step (modelled faithfully by `pilContrast11`)
changed pixel (0,1) from (200,200,200) to (210,210,210). -/
theorem process_swap_failure_output_not_original :
    envY.swapperGet tgtY faceW faceW = Except.error PyErr.exc ∧
    process_face_swap envY SPX TPX 1 = (some outPathX, [(outPathX, wImgY)]) ∧
    wImgY.px 0 1 = (210, 210, 210) ∧ tgtY.px 0 1 = (200, 200, 200) ∧
    wImgY.px 0 1 ≠ tgtY.px 0 1 :=
  ⟨rfl, rfl, by decide, rfl, by decide⟩

/-- Witness for the amended C3 on the concrete `envX` run. -/
theorem process_swap_failure_writes_enhanced_target_witness :
    envX.imread SPX = some srcX ∧ envX.imread TPX = some tgtX ∧
    detect_faces envX.appGet (some srcX) = [faceW] ∧
    detect_faces envX.appGet (some tgtX) = [faceW] ∧
    envX.swapperGet tgtX faceW faceW = Except.error PyErr.exc ∧
    wImgX = apply_quality_chain envX.orc 1 tgtX tgtX srcX :=
  ⟨rfl, rfl, rfl, rfl, rfl,
    process_swap_failure_writes_enhanced_target envX SPX TPX 1 srcX tgtX
      faceW faceW [] [] PyErr.exc rfl rfl rfl rfl rfl (outPathX, wImgX)
      (List.mem_singleton.mpr rfl)⟩
